import Mathlib

/-!
Shallow embedding of the bonsol-calculator repository.

The embedding covers:
* the value codec (24-byte little-endian input encoding built in
  `submit_calculation` in src/solana-program/src/lib.rs and read back by
  `read_i64_input` in src/zk-program/src/main.rs, and the 32-byte
  space-padded decimal result encoding of src/zk-program/src/main.rs);
* the computation engine of src/zk-program/src/main.rs (`main`);
* the on-chain request ledger of src/solana-program/src/lib.rs
  (`initialize`, `submit_calculation`, `get_history`, `callback`),
  as pure functions over an explicit state.

Machine integers (Rust i64 / u64) are modelled as `Int` / `Nat` with the
signed 64-bit range made explicit where overflow matters; bytes are `Nat`
values below 256; fallible code returns `Except`.
-/

namespace BonsolCalc

/-- Error kinds surfaced by the embedded code paths.  The Solana program
uses `ProgramError` variants; the zk guest panics with a message; both are
modelled as constructors of one error type.  `AlreadyInitialized` stands
for the failure of the `create_account` CPI in `initialize` when the state
account already exists (the system program rejects re-creation). -/
inductive CalcError where
  | MissingRequiredSignature
  | AlreadyInitialized
  | InvalidInstructionData
  | IncorrectProgramId
  | DeserializeFailure
  | OperationOutOfRange
  | UnknownOperation
  | ArithmeticOverflow
  | DivisionByZero
deriving DecidableEq, Repr

deriving instance DecidableEq for Except

/-- Smallest i64 value, -2^63. -/
def i64Min : Int := -(2 ^ 63)

/-- Largest i64 value, 2^63 - 1. -/
def i64Max : Int := 2 ^ 63 - 1

/-- Membership in the signed 64-bit range. -/
def isI64 (v : Int) : Prop := i64Min ≤ v ∧ v ≤ i64Max

instance (v : Int) : Decidable (isI64 v) := by unfold isI64; infer_instance

/-- Operation selector constants, shared by src/solana-program/src/lib.rs
(`OP_ADD` .. `OP_DIVIDE` as i64) and src/zk-program/src/main.rs (same
values as u8). -/
def OP_ADD : Int := 0

/-- Subtraction selector. -/
def OP_SUBTRACT : Int := 1

/-- Multiplication selector. -/
def OP_MULTIPLY : Int := 2

/-- Division selector. -/
def OP_DIVIDE : Int := 3

/-! ## Value codec: 24-byte little-endian input encoding -/

/-- Two's-complement image of an i64 as a natural number below 2^64
(the bit pattern `i64::to_le_bytes` serialises). -/
def toNat64 (v : Int) : Nat := (v % (2 ^ 64)).toNat

/-- Little-endian base-256 digits, `k` bytes. -/
def leBytesAux : Nat → Nat → List Nat
  | _, 0 => []
  | n, k + 1 => n % 256 :: leBytesAux (n / 256) k

/-- Embedding of `i64::to_le_bytes`: the eight little-endian bytes of the
two's-complement bit pattern. -/
def toLeBytes (v : Int) : List Nat := leBytesAux (toNat64 v) 8

/-- Recomposition of a little-endian byte list into a natural number. -/
def fromLeNat : List Nat → Nat
  | [] => 0
  | b :: bs => b + 256 * fromLeNat bs

/-- Embedding of `i64::from_le_bytes` (used by `read_i64_input` in
src/zk-program/src/main.rs): reinterpret the 64-bit pattern as signed. -/
def fromLeBytes (bs : List Nat) : Int :=
  if fromLeNat bs < 2 ^ 63 then (fromLeNat bs : Int)
  else (fromLeNat bs : Int) - 2 ^ 64

/-- Embedding of the input-building code of `submit_calculation`
(src/solana-program/src/lib.rs lines 185-193, identical in
src/client/src/main.rs lines 236-244): the three values
[operation, operand_a, operand_b], each as 8 little-endian bytes,
concatenated into one 24-byte buffer. -/
def encode_inputs (operation operand_a operand_b : Int) : List Nat :=
  toLeBytes operation ++ toLeBytes operand_a ++ toLeBytes operand_b

/-- Embedding of the zk guest's input reading (three successive
`read_i64_input` calls, each consuming 8 bytes and applying
`i64::from_le_bytes`). -/
def decode_inputs (bs : List Nat) : Int × Int × Int :=
  (fromLeBytes (bs.take 8),
   fromLeBytes ((bs.drop 8).take 8),
   fromLeBytes ((bs.drop 8).drop 8))

/-! ## Value codec: 32-byte padded decimal result encoding -/

/-- Little-endian decimal digits of `n`, with enough `fuel` (structural
recursion so the definition evaluates). -/
def decDigitsLE : Nat → Nat → List Nat
  | 0, _ => []
  | fuel + 1, n => if n = 0 then [] else n % 10 :: decDigitsLE fuel (n / 10)

/-- Most-significant-first decimal digits of `n`; `0` renders as `[0]`,
matching Rust's `to_string`.  Fuel 30 covers every number below 10^30,
far beyond the i64 range. -/
def decDigits (n : Nat) : List Nat :=
  if n = 0 then [0] else (decDigitsLE 30 n).reverse

/-- Embedding of `value.to_string().as_bytes()` for an i64 `value`
(src/zk-program/src/main.rs line 65): canonical decimal ASCII text,
a leading `-` (byte 45) for negative values, digit bytes `0x30 + d`. -/
def decBytes (v : Int) : List Nat :=
  if v < 0 then 45 :: (decDigits v.natAbs).map (fun d => d + 48)
  else (decDigits v.natAbs).map (fun d => d + 48)

/-- Embedding of the result-committing code of src/zk-program/src/main.rs
lines 65-83: the decimal text of the value, truncated to 32 bytes when
longer (the code's `len > 32` branch), otherwise left-justified in a
32-byte buffer padded with spaces (byte 32 = 0x20). -/
def encode_result (v : Int) : List Nat :=
  if (decBytes v).length > 32 then (decBytes v).take 32
  else decBytes v ++ List.replicate (32 - (decBytes v).length) 32

/-! ## Computation engine (src/zk-program/src/main.rs `main`) -/

/-- Embedding of `i64::checked_add`: the exact sum when it fits in i64,
otherwise the overflow failure (the guest panics on `None`). -/
def checked_add (a b : Int) : Except CalcError Int :=
  if isI64 (a + b) then .ok (a + b) else .error .ArithmeticOverflow

/-- Embedding of `i64::checked_sub`. -/
def checked_sub (a b : Int) : Except CalcError Int :=
  if isI64 (a - b) then .ok (a - b) else .error .ArithmeticOverflow

/-- Embedding of `i64::checked_mul`. -/
def checked_mul (a b : Int) : Except CalcError Int :=
  if isI64 (a * b) then .ok (a * b) else .error .ArithmeticOverflow

/-- Embedding of `i64::checked_div`: `None` (panic) when the divisor is 0
or when the quotient `i64::MIN / -1` overflows; otherwise Rust division,
which truncates toward zero (`Int.tdiv`). -/
def checked_div (a b : Int) : Except CalcError Int :=
  if b = 0 ∨ (a = i64Min ∧ b = -1) then .error .ArithmeticOverflow
  else .ok (Int.tdiv a b)

/-- Embedding of the zk guest `main` computation
(src/zk-program/src/main.rs lines 22-59): reject an operation code
outside 0..=255 (the u8-range panic), dispatch the four selectors with
checked arithmetic, pre-check the divisor before dividing, and reject any
other selector (`Unknown operation` panic). -/
def compute (operation a b : Int) : Except CalcError Int :=
  if operation < 0 ∨ operation > 255 then .error .OperationOutOfRange
  else if operation = OP_ADD then checked_add a b
  else if operation = OP_SUBTRACT then checked_sub a b
  else if operation = OP_MULTIPLY then checked_mul a b
  else if operation = OP_DIVIDE then
    if b = 0 then .error .DivisionByZero
    else checked_div a b
  else .error .UnknownOperation

/-! ## Request ledger (src/solana-program/src/lib.rs) -/

/-- Embedding of `CalculationRecord` (src/solana-program/src/lib.rs
lines 36-45).  `execution_id` is the correlation key; `timestamp` is the
single i64 time field of the record. -/
structure CalculationRecord where
  execution_id : String
  operation : Int
  operand_a : Int
  operand_b : Int
  result : Option Int
  timestamp : Int
  is_complete : Bool
deriving DecidableEq, Repr

/-- Embedding of `CalculatorState` (src/solana-program/src/lib.rs
lines 28-34).  `owner` abstracts the `Pubkey` as a natural number.
`calculation_count` is a u64 that only ever starts at 0 and grows by one
per successful submission; its wraparound at 2^64 is unreachable from
initialisation and is not modelled. -/
structure CalculatorState where
  is_initialized : Bool
  owner : Nat
  calculation_count : Nat
  last_calculation : Option CalculationRecord
deriving DecidableEq, Repr

/-- Embedding of the instruction enum `CalculatorInstruction`
(src/solana-program/src/lib.rs lines 47-68). -/
inductive CalcInstruction where
  | initInstr
  | submitInstr (execution_id : String) (operation operand_a operand_b : Int)
  | historyInstr
  | callbackInstr (execution_id : String) (result : Int)
deriving DecidableEq, Repr

/-- Validity test for the operation selector, embedding
`[OP_ADD, OP_SUBTRACT, OP_MULTIPLY, OP_DIVIDE].contains(&operation)`
(src/solana-program/src/lib.rs line 162). -/
def isValidOp (op : Int) : Bool :=
  op == OP_ADD || op == OP_SUBTRACT || op == OP_MULTIPLY || op == OP_DIVIDE

/-- Embedding of `initialize` (src/solana-program/src/lib.rs
lines 103-143): require the payer's signature, create the state account
(the `create_account` CPI fails when the account already exists — the
`world` argument is `some _` exactly when storage already exists), then
write the fresh state with the payer as owner, a zero count and no
current record. -/
def initLedger (payerIsSigner : Bool) (payer : Nat)
    (world : Option CalculatorState) : Except CalcError CalculatorState :=
  if ¬payerIsSigner then .error .MissingRequiredSignature
  else if world.isSome then .error .AlreadyInitialized
  else .ok { is_initialized := true, owner := payer,
             calculation_count := 0, last_calculation := none }

/-- Record built by `submit_calculation`
(src/solana-program/src/lib.rs lines 238-246): the request's fields,
no result yet, the current clock as timestamp, still pending. -/
def pendingRecord (execution_id : String)
    (operation operand_a operand_b now : Int) : CalculationRecord :=
  { execution_id := execution_id, operation := operation,
    operand_a := operand_a, operand_b := operand_b,
    result := none, timestamp := now, is_complete := false }

/-- Embedding of `submit_calculation` (src/solana-program/src/lib.rs
lines 145-269): require the payer's signature, validate the operation
selector, check that the stored owner is the payer, then record the new
pending calculation and increment the count.  The Bonsol execution
request built between the checks and the state update is a CPI whose
invocation is disabled in the source (line 234) and which carries no
ledger state; it is not modelled. -/
def submit_calculation (payerIsSigner : Bool) (payer : Nat)
    (st : CalculatorState) (execution_id : String)
    (operation operand_a operand_b : Int) (now : Int) :
    Except CalcError CalculatorState :=
  if ¬payerIsSigner then .error .MissingRequiredSignature
  else if ¬isValidOp operation then .error .InvalidInstructionData
  else if st.owner ≠ payer then .error .IncorrectProgramId
  else
    let newRecord := pendingRecord execution_id operation operand_a operand_b now
    .ok { st with calculation_count := st.calculation_count + 1,
                  last_calculation := some newRecord }

/-- Embedding of `callback` (src/solana-program/src/lib.rs
lines 301-342): when a current record exists and its `execution_id`
matches, store the result and mark the record complete and persist;
on a mismatched id, or with no current record, only a warning is logged,
nothing is persisted, and the instruction still returns `Ok(())` —
the function is total and returns the (possibly unchanged) state. -/
def callback (st : CalculatorState) (execution_id : String)
    (result : Int) : CalculatorState :=
  match st.last_calculation with
  | some prev =>
    if prev.execution_id = execution_id then
      let updated := { prev with result := some result, is_complete := true }
      { st with last_calculation := some updated }
    else st
  | none => st

/-- Embedding of `process_instruction` (src/solana-program/src/lib.rs
lines 76-101) over an explicit account world: `none` means the state
account does not exist yet.  `get_history` is read-only; dispatch into
the four handlers mirrors the source `match`.  Deserialising a
non-existent account fails (`DeserializeFailure`), after the checks the
source performs before loading state. -/
def process (world : Option CalculatorState) (instr : CalcInstruction)
    (payerIsSigner : Bool) (payer : Nat) (now : Int) :
    Except CalcError (Option CalculatorState) :=
  match instr with
  | .initInstr => (initLedger payerIsSigner payer world).map some
  | .submitInstr eid op a b =>
    if ¬payerIsSigner then .error .MissingRequiredSignature
    else if ¬isValidOp op then .error .InvalidInstructionData
    else match world with
      | none => .error .DeserializeFailure
      | some st => (submit_calculation payerIsSigner payer st eid op a b now).map some
  | .historyInstr =>
    match world with
    | none => .error .DeserializeFailure
    | some _ => .ok world
  | .callbackInstr eid r =>
    match world with
    | none => .error .DeserializeFailure
    | some st => .ok (some (callback st eid r))

/-- Calculation count of an account world (0 when the account does not
exist yet). -/
def worldCount (world : Option CalculatorState) : Nat :=
  match world with
  | none => 0
  | some st => st.calculation_count

/-! ## Supporting lemmas about the value codec -/

/-- `leBytesAux` always produces exactly `k` bytes. -/
lemma leBytesAux_length (k n : Nat) : (leBytesAux n k).length = k := by
  induction k generalizing n with
  | zero => simp [leBytesAux]
  | succ k ih => simp [leBytesAux, ih]

/-- An encoded i64 is exactly 8 bytes. -/
lemma toLeBytes_length (v : Int) : (toLeBytes v).length = 8 :=
  leBytesAux_length 8 _

/-- Recomposing `k` little-endian bytes of `n` recovers `n` modulo `256^k`. -/
lemma fromLeNat_leBytesAux (k n : Nat) :
    fromLeNat (leBytesAux n k) = n % 256 ^ k := by
  induction k generalizing n with
  | zero => simp [leBytesAux, fromLeNat, Nat.mod_one]
  | succ k ih =>
    rw [leBytesAux, fromLeNat, ih, pow_succ, Nat.mul_comm (256 ^ k) 256,
      Nat.mod_mul]

/-- The two's-complement image of an i64 fits in 64 bits. -/
lemma toNat64_lt (v : Int) : toNat64 v < 2 ^ 64 := by
  rw [toNat64]; omega

/-- Recomposing the 8 bytes of `toLeBytes` yields the bit pattern back. -/
lemma fromLeNat_toLeBytes (v : Int) : fromLeNat (toLeBytes v) = toNat64 v := by
  rw [toLeBytes, fromLeNat_leBytesAux]
  have h : toNat64 v < 256 ^ 8 := by
    have := toNat64_lt v
    norm_num at this ⊢
    omega
  exact Nat.mod_eq_of_lt h

/-- Signed round-trip: reading back the little-endian bytes of an i64
recovers the value. -/
lemma fromLeBytes_toLeBytes (v : Int) (h : isI64 v) :
    fromLeBytes (toLeBytes v) = v := by
  obtain ⟨h1, h2⟩ := h
  rw [i64Min] at h1
  rw [i64Max] at h2
  rw [fromLeBytes, fromLeNat_toLeBytes, toNat64]
  split <;> rename_i hc <;> omega

/-! ## Supporting lemmas about the decimal result encoding -/

/-- A number below `10^k` has at most `k` decimal digits. -/
lemma decDigitsLE_length_le (fuel n k : Nat) (h : n < 10 ^ k) :
    (decDigitsLE fuel n).length ≤ k := by
  induction fuel generalizing n k with
  | zero => simp [decDigitsLE]
  | succ fuel ih =>
    rw [decDigitsLE]
    split
    · simp
    · rename_i h0
      cases k with
      | zero => omega
      | succ k =>
        have hd : n / 10 < 10 ^ k := by
          rw [Nat.div_lt_iff_lt_mul (by norm_num)]
          calc n < 10 ^ (k + 1) := h
            _ = 10 ^ k * 10 := pow_succ 10 k
        simpa using Nat.succ_le_succ (ih (n / 10) k hd)

/-- The decimal text of an i64 magnitude has at most 19 digits
(`2^63 < 10^19`). -/
lemma decDigits_length_le (n : Nat) (h : n ≤ 2 ^ 63) :
    (decDigits n).length ≤ 19 := by
  rw [decDigits]
  split
  · simp
  · rw [List.length_reverse]
    exact decDigitsLE_length_le 30 n 19 (by omega)

/-- The decimal ASCII text of an i64 value is at most 20 bytes
(19 digits plus an optional sign). -/
lemma decBytes_length_le (v : Int) (h : isI64 v) :
    (decBytes v).length ≤ 20 := by
  obtain ⟨h1, h2⟩ := h
  have habs : v.natAbs ≤ 2 ^ 63 := by
    rw [i64Min] at h1; rw [i64Max] at h2; omega
  have hd := decDigits_length_le v.natAbs habs
  rw [decBytes]
  split <;> simp <;> omega

/-! ## Claim theorems: value codec -/

/-- C6: for every operation selector and all i64 operands, `encode_inputs`
produces exactly the 24-byte buffer of three consecutive 8-byte
little-endian signed integers in the order [operation, operand_a,
operand_b], and decoding it the way the zk guest does yields the triple
back. -/
theorem encode_decode_inputs_roundtrip (op a b : Int)
    (hop : isI64 op) (ha : isI64 a) (hb : isI64 b) :
    encode_inputs op a b = toLeBytes op ++ toLeBytes a ++ toLeBytes b ∧
    (encode_inputs op a b).length = 24 ∧
    decode_inputs (encode_inputs op a b) = (op, a, b) := by
  refine ⟨rfl, ?_, ?_⟩
  · simp [encode_inputs, toLeBytes_length]
  · rw [encode_inputs, decode_inputs, List.append_assoc,
      List.take_left' (toLeBytes_length op),
      List.drop_left' (toLeBytes_length op),
      List.take_left' (toLeBytes_length a),
      List.drop_left' (toLeBytes_length a),
      fromLeBytes_toLeBytes op hop, fromLeBytes_toLeBytes a ha,
      fromLeBytes_toLeBytes b hb]

/-- Witness for C6 at a concrete triple. -/
theorem encode_decode_inputs_roundtrip_witness :
    decode_inputs (encode_inputs 3 (-5) 123) = (3, -5, 123) :=
  (encode_decode_inputs_roundtrip 3 (-5) 123 (by decide) (by decide)
    (by decide)).2.2

/-- C4: for every i64 value, `encode_result` renders the value as its
canonical decimal ASCII text, left-justified in a 32-byte buffer padded
with spaces (0x20); the decimal text never exceeds 32 bytes (so the
over-length branch — which only such a text could reach — is never
taken: no i64 is ever truncated, and the failure case is unreachable). -/
theorem encode_result_pads (v : Int) (h : isI64 v) :
    (decBytes v).length ≤ 32 ∧
    encode_result v = decBytes v ++ List.replicate (32 - (decBytes v).length) 32 ∧
    (encode_result v).length = 32 := by
  have hlen : (decBytes v).length ≤ 20 := decBytes_length_le v h
  refine ⟨by omega, ?_, ?_⟩
  · rw [encode_result, if_neg (by omega)]
  · rw [encode_result, if_neg (by omega)]
    simp
    omega

/-- Witness for C4 at the longest i64 text, the minimum value
(20 bytes of text, 12 bytes of padding). -/
theorem encode_result_pads_witness :
    (decBytes (-(2 ^ 63))).length ≤ 32 ∧
    encode_result (-(2 ^ 63)) =
      decBytes (-(2 ^ 63)) ++
        List.replicate (32 - (decBytes (-(2 ^ 63))).length) 32 ∧
    (encode_result (-(2 ^ 63))).length = 32 :=
  encode_result_pads (-(2 ^ 63)) (by decide)

/-! ## Claim theorems: computation engine -/

/-- C7: Add, Subtract and Multiply use overflow-checked arithmetic —
whenever the exact result leaves the signed 64-bit range the engine
fails with the arithmetic-overflow panic instead of wrapping, and inside
the range it returns the exact result; in particular multiplying
`i64::MAX` by 2 overflows. -/
theorem compute_checked_overflow (a b : Int) (ha : isI64 a) (hb : isI64 b) :
    (¬isI64 (a + b) → compute OP_ADD a b = .error .ArithmeticOverflow) ∧
    (isI64 (a + b) → compute OP_ADD a b = .ok (a + b)) ∧
    (¬isI64 (a - b) → compute OP_SUBTRACT a b = .error .ArithmeticOverflow) ∧
    (isI64 (a - b) → compute OP_SUBTRACT a b = .ok (a - b)) ∧
    (¬isI64 (a * b) → compute OP_MULTIPLY a b = .error .ArithmeticOverflow) ∧
    (isI64 (a * b) → compute OP_MULTIPLY a b = .ok (a * b)) ∧
    compute OP_MULTIPLY i64Max 2 = .error .ArithmeticOverflow := by
  have hadd : compute OP_ADD a b = checked_add a b := by
    norm_num [compute, OP_ADD, OP_SUBTRACT, OP_MULTIPLY, OP_DIVIDE]
  have hsub : compute OP_SUBTRACT a b = checked_sub a b := by
    norm_num [compute, OP_ADD, OP_SUBTRACT, OP_MULTIPLY, OP_DIVIDE]
  have hmul : compute OP_MULTIPLY a b = checked_mul a b := by
    norm_num [compute, OP_ADD, OP_SUBTRACT, OP_MULTIPLY, OP_DIVIDE]
  refine ⟨?_, ?_, ?_, ?_, ?_, ?_, by decide⟩
  · intro h; rw [hadd, checked_add, if_neg h]
  · intro h; rw [hadd, checked_add, if_pos h]
  · intro h; rw [hsub, checked_sub, if_neg h]
  · intro h; rw [hsub, checked_sub, if_pos h]
  · intro h; rw [hmul, checked_mul, if_neg h]
  · intro h; rw [hmul, checked_mul, if_pos h]

/-- Witness for C7: `i64::MAX + 2` overflows. -/
theorem compute_checked_overflow_witness :
    compute OP_ADD i64Max 2 = Except.error CalcError.ArithmeticOverflow :=
  (compute_checked_overflow i64Max 2 (by decide) (by decide)).1 (by decide)

/-- C8 as stated is false: for `a = i64::MIN` and `b = -1` the divisor is
nonzero but the truncated quotient `2^63` does not fit in an i64, so the
engine fails with the overflow panic from `checked_div` instead of
returning the quotient. -/
theorem compute_divide_min_counterexample :
    compute OP_DIVIDE i64Min (-1) = Except.error CalcError.ArithmeticOverflow ∧
    compute OP_DIVIDE i64Min (-1) ≠ Except.ok (Int.tdiv i64Min (-1)) ∧
    Int.tdiv i64Min (-1) = 2 ^ 63 := by
  refine ⟨by decide, ?_, by decide⟩
  intro h
  have : Except.error CalcError.ArithmeticOverflow =
      (Except.ok (Int.tdiv i64Min (-1)) : Except CalcError Int) := by
    rw [← h]; decide
  exact Except.noConfusion this

/-- C8 amended: `compute(Divide, a, b)` fails with the division-by-zero
panic whenever `b = 0` (checked before dividing, for every `a`); for a
nonzero divisor it returns the quotient truncated toward zero, except at
`a = i64::MIN, b = -1`, where the quotient overflows and the engine
fails with the arithmetic-overflow panic. -/
theorem compute_divide_spec (a b : Int) (ha : isI64 a) (hb : isI64 b) :
    (b = 0 → compute OP_DIVIDE a b = .error .DivisionByZero) ∧
    (b ≠ 0 → ¬(a = i64Min ∧ b = -1) →
      compute OP_DIVIDE a b = .ok (Int.tdiv a b)) ∧
    (a = i64Min → b = -1 →
      compute OP_DIVIDE a b = .error .ArithmeticOverflow) := by
  have hdiv : compute OP_DIVIDE a b =
      if b = 0 then .error .DivisionByZero else checked_div a b := by
    norm_num [compute, OP_ADD, OP_SUBTRACT, OP_MULTIPLY, OP_DIVIDE]
  refine ⟨?_, ?_, ?_⟩
  · intro h; rw [hdiv, if_pos h]
  · intro h hmin
    rw [hdiv, if_neg h, checked_div, if_neg (by tauto)]
  · intro ha1 hb1
    subst ha1; subst hb1
    rw [hdiv, if_neg (by decide), checked_div, if_pos (by simp)]

/-- Witness for C8 (amended) at `7 / -2 = -3` (truncation toward zero). -/
theorem compute_divide_spec_witness :
    compute OP_DIVIDE 7 (-2) = Except.ok (-3) := by
  have h := (compute_divide_spec 7 (-2) (by decide) (by decide)).2.1
    (by decide) (by decide)
  rw [h]
  decide

/-! ## Concrete example states (the spec's `calc_exec_1` scenario) -/

/-- Freshly initialised ledger for owner 7. -/
def exInitState : CalculatorState :=
  { is_initialized := true, owner := 7, calculation_count := 0,
    last_calculation := none }

/-- Pending record of the spec's concrete scenario: `calc_exec_1`,
`2 + 12`, submitted at clock 100. -/
def exPendingRecord : CalculationRecord :=
  pendingRecord "calc_exec_1" OP_ADD 2 12 100

/-- Ledger right after submitting the scenario request. -/
def exPendingState : CalculatorState :=
  { is_initialized := true, owner := 7, calculation_count := 1,
    last_calculation := some exPendingRecord }

/-- Completed record: the callback delivered 14. -/
def exCompleteRecord : CalculationRecord :=
  { exPendingRecord with result := some 14, is_complete := true }

/-- Ledger after the first successful callback. -/
def exCompleteState : CalculatorState :=
  { exPendingState with last_calculation := some exCompleteRecord }

/-- Record after a second callback delivering 99 on the already-complete
record: the stored 14 is overwritten. -/
def exOverwrittenRecord : CalculationRecord :=
  { exCompleteRecord with result := some 99 }

/-- Ledger after the duplicate callback. -/
def exOverwrittenState : CalculatorState :=
  { exCompleteState with last_calculation := some exOverwrittenRecord }

/-! ## Supporting lemmas about the ledger -/

/-- Shape of every successful submission: the same state with the count
bumped and the current record replaced by the fresh pending record. -/
lemma submit_calculation_ok (sg : Bool) (py : Nat) (st : CalculatorState)
    (eid : String) (op a b now : Int) (st1 : CalculatorState)
    (h : submit_calculation sg py st eid op a b now = Except.ok st1) :
    st1 = { st with calculation_count := st.calculation_count + 1,
                    last_calculation := some (pendingRecord eid op a b now) } := by
  rw [submit_calculation] at h
  split at h
  · simp at h
  · split at h
    · simp at h
    · split at h
      · simp at h
      · simp only [Except.ok.injEq] at h
        exact h.symm

/-- The callback never changes the calculation count. -/
lemma callback_count (st : CalculatorState) (eid : String) (r : Int) :
    (callback st eid r).calculation_count = st.calculation_count := by
  rw [callback]
  rcases st.last_calculation with _ | prev
  · rfl
  · dsimp only
    split <;> rfl

/-! ## Claim theorems: request ledger -/

/-- C5: `initialize` fails with the already-initialized error when the
state account already exists, and a successful initialisation records
the caller as owner with a zero count and no current record. -/
theorem initLedger_spec (py : Nat) (world : Option CalculatorState) :
    (world.isSome = true →
      initLedger true py world = Except.error CalcError.AlreadyInitialized) ∧
    (∀ sg st1, initLedger sg py world = Except.ok st1 →
      st1.owner = py ∧ st1.calculation_count = 0 ∧
      st1.last_calculation = none ∧ st1.is_initialized = true) := by
  constructor
  · intro h
    rw [initLedger]
    simp [h]
  · intro sg st1 h
    rw [initLedger] at h
    split at h
    · simp at h
    · split at h
      · simp at h
      · simp only [Except.ok.injEq] at h
        subst h
        exact ⟨rfl, rfl, rfl, rfl⟩

/-- Witness for C5: re-initialising an existing ledger fails, and a fresh
initialisation for owner 7 yields the expected state. -/
theorem initLedger_spec_witness :
    initLedger true 7 (some exInitState) =
      Except.error CalcError.AlreadyInitialized ∧
    (exInitState.owner = 7 ∧ exInitState.calculation_count = 0 ∧
      exInitState.last_calculation = none ∧
      exInitState.is_initialized = true) :=
  ⟨(initLedger_spec 7 (some exInitState)).1 (by decide),
   (initLedger_spec 7 none).2 true exInitState (by decide)⟩

/-- C9: every successful submission stores the fresh pending record
(copied from the request, result absent, not complete) as the current
record and increments the count by exactly one; and no operation of the
program ever decreases the count. -/
theorem submit_increments_count :
    (∀ sg py st eid op a b now st1,
      submit_calculation sg py st eid op a b now = Except.ok st1 →
      st1.last_calculation = some (pendingRecord eid op a b now) ∧
      st1.calculation_count = st.calculation_count + 1 ∧
      st1.owner = st.owner) ∧
    (∀ world instr sg py now world1,
      process world instr sg py now = Except.ok world1 →
      worldCount world ≤ worldCount world1) := by
  constructor
  · intro sg py st eid op a b now st1 h
    have he := submit_calculation_ok sg py st eid op a b now st1 h
    subst he
    exact ⟨rfl, rfl, rfl⟩
  · intro world instr sg py now world1 h
    cases instr with
    | initInstr =>
      cases world with
      | none => exact Nat.zero_le _
      | some st =>
        simp only [process] at h
        rw [initLedger] at h
        split at h
        · simp [Except.map] at h
        · split at h
          · simp [Except.map] at h
          · rename_i h2
            simp at h2
    | submitInstr eid op a b =>
      simp only [process] at h
      split at h
      · simp at h
      · split at h
        · simp at h
        · cases world with
          | none => simp at h
          | some st =>
            dsimp only at h
            cases hs : submit_calculation sg py st eid op a b now with
            | error e => rw [hs] at h; simp [Except.map] at h
            | ok st1 =>
              rw [hs] at h
              simp [Except.map] at h
              have he := submit_calculation_ok sg py st eid op a b now st1 hs
              subst he
              rw [← h]
              simp [worldCount]
    | historyInstr =>
      cases world with
      | none => simp [process] at h
      | some st =>
        simp only [process] at h
        simp at h
        rw [← h]
    | callbackInstr eid r =>
      cases world with
      | none => simp [process] at h
      | some st =>
        simp only [process] at h
        simp at h
        rw [← h]
        simp [worldCount, callback_count]

/-- Witness for C9 at the concrete scenario submission and its
`process`-level run. -/
theorem submit_increments_count_witness :
    (exPendingState.last_calculation = some (pendingRecord "calc_exec_1" OP_ADD 2 12 100) ∧
      exPendingState.calculation_count = exInitState.calculation_count + 1 ∧
      exPendingState.owner = exInitState.owner) ∧
    worldCount (some exInitState) ≤ worldCount (some exPendingState) :=
  ⟨submit_increments_count.1 true 7 exInitState "calc_exec_1" OP_ADD 2 12 100
      exPendingState (by decide),
   submit_increments_count.2 (some exInitState)
      (.submitInstr "calc_exec_1" OP_ADD 2 12) true 7 100
      (some exPendingState) (by decide)⟩

/-- C10: `submit_calculation` has no in-flight check — with the current
record still pending, a new submission by the owner with a valid
operation succeeds, unconditionally replaces the current record with the
new pending one (discarding the old request's correlation state), and
still increments the count. -/
theorem submit_no_pending_guard (st : CalculatorState)
    (prev : CalculationRecord) (py : Nat) (eid : String) (op a b now : Int)
    (hcur : st.last_calculation = some prev)
    (hpend : prev.is_complete = false)
    (hown : st.owner = py) (hop : isValidOp op = true) :
    submit_calculation true py st eid op a b now =
      Except.ok { st with calculation_count := st.calculation_count + 1, last_calculation := some (pendingRecord eid op a b now) } := by
  rw [submit_calculation]
  rw [if_neg (by simp), if_neg (by simp [hop]), if_neg (by simp [hown])]

/-- Witness for C10: submitting `calc_exec_2` while `calc_exec_1` is
still pending succeeds and overwrites it. -/
theorem submit_no_pending_guard_witness :
    submit_calculation true 7 exPendingState "calc_exec_2" OP_MULTIPLY 7 6 300 =
      Except.ok { exPendingState with calculation_count := exPendingState.calculation_count + 1, last_calculation := some (pendingRecord "calc_exec_2" OP_MULTIPLY 7 6 300) } :=
  submit_no_pending_guard exPendingState exPendingRecord 7 "calc_exec_2"
    OP_MULTIPLY 7 6 300 rfl rfl rfl (by decide)

/-- C1 as stated is false: the code has no `AlreadyComplete` guard.  A
duplicate callback with the matching request id on an already-complete
record returns success and overwrites the stored result (14 becomes
99). -/
theorem callback_duplicate_counterexample :
    process (some exCompleteState) (.callbackInstr "calc_exec_1" 99) true 7 200 =
      Except.ok (some exOverwrittenState) ∧
    exCompleteRecord.is_complete = true ∧
    exCompleteRecord.result = some 14 ∧
    exOverwrittenState.last_calculation = some exOverwrittenRecord ∧
    exOverwrittenRecord.result = some 99 ∧
    some 99 ≠ (some 14 : Option Int) :=
  ⟨by decide, rfl, rfl, rfl, rfl, by decide⟩

/-- C1 amended: `apply_callback` with the matching request id on a
record that is already complete does not fail — it succeeds again and
overwrites the stored result with the newly delivered one (the record
stays complete). -/
theorem callback_overwrites_complete (st : CalculatorState)
    (prev : CalculationRecord) (eid : String) (r : Int) (sg : Bool)
    (py : Nat) (now : Int)
    (hcur : st.last_calculation = some prev)
    (hid : prev.execution_id = eid)
    (hdone : prev.is_complete = true) :
    process (some st) (.callbackInstr eid r) sg py now =
      Except.ok (some { st with last_calculation := some { prev with result := some r, is_complete := true } }) := by
  simp only [process]
  unfold callback
  rw [hcur]
  dsimp only
  rw [if_pos hid]

/-- Witness for C1 (amended) at the concrete duplicate delivery. -/
theorem callback_overwrites_complete_witness :
    process (some exCompleteState) (.callbackInstr "calc_exec_1" 99) true 7 200 =
      Except.ok (some { exCompleteState with last_calculation := some { exCompleteRecord with result := some 99, is_complete := true } }) :=
  callback_overwrites_complete exCompleteState exCompleteRecord
    "calc_exec_1" 99 true 7 200 rfl rfl rfl

/-- C2 as stated is false: a callback whose request id does not match the
current record does leave the record byte-identical, but it does not
fail with a mismatch error — the instruction returns success. -/
theorem callback_mismatch_counterexample :
    process (some exPendingState) (.callbackInstr "stale_request_9" 5) true 7 200 =
      Except.ok (some exPendingState) ∧
    exPendingRecord.execution_id ≠ "stale_request_9" :=
  ⟨by decide, by decide⟩

/-- C2 amended: on a mismatched request id the callback leaves the state
untouched (the record is byte-identical) but surfaces no error — it
returns success after only logging a warning. -/
theorem callback_mismatch_noop (st : CalculatorState)
    (prev : CalculationRecord) (eid : String) (r : Int) (sg : Bool)
    (py : Nat) (now : Int)
    (hcur : st.last_calculation = some prev)
    (hid : prev.execution_id ≠ eid) :
    process (some st) (.callbackInstr eid r) sg py now = Except.ok (some st) := by
  simp only [process]
  unfold callback
  rw [hcur]
  dsimp only
  rw [if_neg hid]

/-- Witness for C2 (amended) at a concrete stale callback. -/
theorem callback_mismatch_noop_witness :
    process (some exPendingState) (.callbackInstr "unrelated_id" 5) true 7 200 =
      Except.ok (some exPendingState) :=
  callback_mismatch_noop exPendingState exPendingRecord "unrelated_id" 5
    true 7 200 rfl (by decide)

/-- C3 as stated is false: the record's only time field is written at
submission (it already equals the submission clock 100 while the record
is still pending), and the completing callback leaves it unchanged —
there is no `completed_at` written at completion. -/
theorem timestamp_counterexample :
    submit_calculation true 7 exInitState "calc_exec_1" OP_ADD 2 12 100 =
      Except.ok exPendingState ∧
    exPendingRecord.timestamp = 100 ∧
    exPendingRecord.is_complete = false ∧
    callback exPendingState "calc_exec_1" 14 = exCompleteState ∧
    exCompleteRecord.timestamp = exPendingRecord.timestamp ∧
    exCompleteRecord.is_complete = true :=
  ⟨by decide, rfl, rfl, by decide, rfl, rfl⟩

/-- C3 amended: the timestamp is set exactly once, at submission time (to
the submission clock), and the callback — which reads no clock — never
changes any record's timestamp. -/
theorem timestamp_set_at_submission :
    (∀ sg py st eid op a b now st1,
      submit_calculation sg py st eid op a b now = Except.ok st1 →
      Option.map (fun c => c.timestamp) st1.last_calculation = some now) ∧
    (∀ st eid r,
      Option.map (fun c => c.timestamp) (callback st eid r).last_calculation =
        Option.map (fun c => c.timestamp) st.last_calculation) := by
  constructor
  · intro sg py st eid op a b now st1 h
    have he := submit_calculation_ok sg py st eid op a b now st1 h
    subst he
    rfl
  · intro st eid r
    unfold callback
    rcases hsc : st.last_calculation with _ | prev
    · dsimp only
      rw [hsc]
    · dsimp only
      split
      · rfl
      · rw [hsc]

/-- Witness for C3 (amended) at the concrete scenario. -/
theorem timestamp_set_at_submission_witness :
    Option.map (fun c => c.timestamp) exPendingState.last_calculation = some 100 ∧
    Option.map (fun c => c.timestamp)
        (callback exPendingState "calc_exec_1" 14).last_calculation =
      Option.map (fun c => c.timestamp) exPendingState.last_calculation :=
  ⟨timestamp_set_at_submission.1 true 7 exInitState "calc_exec_1" OP_ADD 2 12
      100 exPendingState (by decide),
   timestamp_set_at_submission.2 exPendingState "calc_exec_1" 14⟩

end BonsolCalc
